import Mathlib

/-!
Shallow embedding of the data-transformation scripts of the RealGlobal
repository (directory `data-scripts/`): GeoJSON reprojection
(`convert_opportunity_zones.py`), MultiPolygon splitting
(`split_opportunity_zones.py`), QOZ CSV loading and per-row boundary
lookup (`convert_qozs_to_geojson.py`), the bulk tabular join
(`qozs_to_geojson_bulk.py`), and the economic-indicators CSV writer
(`generate_economic_data.py`).  JSON numbers are modelled as rationals,
JSON arrays as lists; the pyproj transformer and the census-boundary
HTTP lookup are abstracted as function parameters (they are external
collaborators, pure from the scripts' point of view).
-/

namespace RealGlobal

/-- A JSON scalar value as used in feature ids and properties mappings. -/
inductive Value where
  | str : String → Value
  | int : Int → Value
deriving DecidableEq

/-- A coordinate as read from JSON: an array of numbers (usually a pair). -/
abbrev Coord := List Rat

/-- A linear ring: an array of coordinates. -/
abbrev LinRing := List Coord

/-- Polygon coordinates: an array of rings. -/
abbrev Poly := List LinRing

/-- A GeoJSON geometry: the three types occurring in the scripts. -/
inductive Geometry where
  | point : Coord → Geometry
  | polygon : Poly → Geometry
  | multiPolygon : List Poly → Geometry
deriving DecidableEq

/-- Document-level CRS object, as written by `convert_opportunity_zones.py`:
`\x7b"type": "name", "properties": \x7b"name": ...\x7d\x7d`. -/
structure CRS where
  type : String
  name : String
deriving DecidableEq

/-- A GeoJSON Feature: optional id, geometry, properties mapping
(an insertion-ordered dict, modelled as an association list). -/
structure Feature where
  id : Option Value
  geometry : Geometry
  properties : List (String × Value)
deriving DecidableEq

/-- A FeatureCollection document with a `crs` member present. -/
structure Doc where
  crs : CRS
  features : List Feature
deriving DecidableEq

/-- A document as read from disk, where the `crs` member may be absent
(accessing it then raises a KeyError in the script). -/
structure RawDoc where
  crs : Option CRS
  features : List Feature
deriving DecidableEq

/-- Python `str()` of a JSON scalar, as interpolated by an f-string. -/
def pyStr : Value → String
  | Value.str s => s
  | Value.int n => toString n

/-- Python dict update `\x7b**d, k: v\x7d`: overwrite `k` in place if present
(keeping its position), otherwise append it. -/
def dictInsert (d : List (String × Value)) (k : String) (v : Value) :
    List (String × Value) :=
  if d.any (fun p => p.1 = k) then
    d.map (fun p => if p.1 = k then (k, v) else p)
  else d ++ [(k, v)]

/-- One split part, as built in the loop body of `split_multipolygon`
(`split_opportunity_zones.py`, lines 24-36): id `f"\x7boid\x7d_\x7bi\x7d"`, Polygon
geometry, original properties plus `polygon_index` and `total_polygons`. -/
def mkPart (oid : String) (props : List (String × Value)) (total i : Nat)
    (p : Poly) : Feature :=
  { id := some (Value.str (oid ++ "_" ++ toString i)),
    geometry := Geometry.polygon p,
    properties :=
      dictInsert (dictInsert props ("polygon_index") (Value.int i))
        ("total_polygons") (Value.int total) }

/-- The `for i, polygon_coords in enumerate(...)` loop: one Feature per
constituent polygon, index-tracked. -/
def splitParts (oid : String) (props : List (String × Value)) (total : Nat) :
    Nat → List Poly → List Feature
  | _, [] => []
  | i, p :: ps => mkPart oid props total i p :: splitParts oid props total (i + 1) ps

/-- Per-feature action of `split_multipolygon`: a MultiPolygon feature is
replaced by one Polygon feature per part; any other feature is kept as-is. -/
def splitFeature (f : Feature) : List Feature :=
  match f.geometry with
  | Geometry.multiPolygon ps =>
      splitParts (pyStr (f.id.getD (Value.str ("unknown")))) f.properties
        ps.length 0 ps
  | _ => [f]

/-- `split_multipolygon` (lines 17-47): rebuild the feature list, keeping the
document's `crs`. -/
def split_multipolygon (d : Doc) : Doc :=
  { crs := d.crs, features := d.features.flatMap splitFeature }

/-- Error raised while running the split script on a raw document:
`geojson['crs']` raises a KeyError when the member is absent. -/
inductive SplitErr where
  | keyError : String → SplitErr
deriving DecidableEq

/-- Running `split_multipolygon()` on a raw input document: building the
output dict reads `geojson['crs']`, which fails when `crs` is absent. -/
def split_run (rd : RawDoc) : Except SplitErr Doc :=
  match rd.crs with
  | none => Except.error (SplitErr.keyError ("crs"))
  | some c => Except.ok (split_multipolygon { crs := c, features := rd.features })

/-- The split script's `__main__` guard (lines 66-72): the `try/except`
prints any error and falls through, so the process exit status is 0 on
both paths; output is persisted only on success. -/
def split_main (rd : RawDoc) : Option Doc × Nat :=
  match split_run rd with
  | Except.ok d => (some d, 0)
  | Except.error _ => (none, 0)

/-- Number of output features a single input feature contributes to the
split: its part count for a MultiPolygon, 1 otherwise. -/
def partCount (f : Feature) : Nat :=
  match f.geometry with
  | Geometry.multiPolygon ps => ps.length
  | _ => 1

/-- Whether a geometry is Polygon-typed. -/
def isPolygonGeom : Geometry → Bool
  | Geometry.polygon _ => true
  | _ => false

/-- Example input: the constituent polygons of a two-part MultiPolygon. -/
def exPsC1 : List Poly :=
  [[[[0, 0], [1, 0], [0, 1], [0, 0]]], [[[2, 2], [3, 2], [2, 3], [2, 2]]]]

/-- Example input: a Feature with id `7` carrying that MultiPolygon. -/
def exFC1 : Feature :=
  { id := some (Value.str ("7")), geometry := Geometry.multiPolygon exPsC1,
    properties := [(("STATE"), Value.str ("WA"))] }

/-- Example input: a document holding `exFC1`. -/
def exDC1 : Doc :=
  { crs := { type := ("name"), name := ("EPSG:2926") }, features := [exFC1] }

/-- Example input: a document containing only Polygon-typed features. -/
def exDC4 : Doc :=
  { crs := { type := ("name"), name := ("EPSG:4326") },
    features := [{ id := some (Value.int 3),
                   geometry := Geometry.polygon [[[0, 0], [1, 0], [0, 0]]],
                   properties := [] }] }

/-- The error raised while transforming coordinates.  The Python loop in
`convert_opportunity_zones.py` (lines 22-29) can only fail by indexing
`coord[0]` / `coord[1]` on a too-short array; the resulting IndexError
carries no feature index or coordinate position. -/
inductive TransformErr where
  | indexError : TransformErr
deriving DecidableEq

/-- Sequencing of a fallible transformation over a list, stopping at the
first error (the Python `for` loop raises out of the whole function). -/
def mapE {ε α β : Type} (f : α → Except ε β) : List α → Except ε (List β)
  | [] => Except.ok []
  | x :: xs =>
    match f x with
    | Except.error e => Except.error e
    | Except.ok y =>
      match mapE f xs with
      | Except.error e => Except.error e
      | Except.ok ys => Except.ok (y :: ys)

/-- One step of the loop body: `lon, lat = transformer.transform(coord[0],
coord[1]); ring[i] = [lon, lat]`.  `T` abstracts the pyproj transformer, a
pure total map (pyproj with default settings returns values, e.g. infinities,
rather than raising, for out-of-domain input). -/
def transformCoord (T : Rat → Rat → Rat × Rat) (c : Coord) :
    Except TransformErr Coord :=
  match c with
  | x :: y :: _ => Except.ok [(T x y).1, (T x y).2]
  | _ => Except.error TransformErr.indexError

/-- Transform every coordinate of a ring. -/
def transformRing (T : Rat → Rat → Rat × Rat) (r : LinRing) :
    Except TransformErr LinRing :=
  mapE (transformCoord T) r

/-- Transform every ring of a polygon. -/
def transformPoly (T : Rat → Rat → Rat × Rat) (p : Poly) :
    Except TransformErr Poly :=
  mapE (transformRing T) p

/-- Per-feature action of the conversion loop: only features whose geometry
type is MultiPolygon are touched; all others pass through unchanged. -/
def transformFeature (T : Rat → Rat → Rat × Rat) (f : Feature) :
    Except TransformErr Feature :=
  match f.geometry with
  | Geometry.multiPolygon ps =>
    match mapE (transformPoly T) ps with
    | Except.error e => Except.error e
    | Except.ok ps2 =>
        Except.ok { id := f.id, geometry := Geometry.multiPolygon ps2,
                    properties := f.properties }
  | _ => Except.ok f

/-- The CRS object written by the conversion script (lines 32-37). -/
def wgs84CRS : CRS := { type := ("name"), name := ("EPSG:4326") }

/-- `convert_coordinates` (lines 22-41): transform all features, then
overwrite the document-level CRS metadata with EPSG:4326. -/
def convert_coordinates (T : Rat → Rat → Rat × Rat) (d : Doc) :
    Except TransformErr Doc :=
  match mapE (transformFeature T) d.features with
  | Except.error e => Except.error e
  | Except.ok fs => Except.ok { crs := wgs84CRS, features := fs }

/-- The conversion script's `__main__` guard (lines 51-57): the output file
is written only after the whole document transformed; on any exception the
script prints a message and exits with status 1. -/
def convert_main (T : Rat → Rat → Rat × Rat) (d : Doc) : Option Doc × Nat :=
  match convert_coordinates T d with
  | Except.ok d2 => (some d2, 0)
  | Except.error _ => (none, 1)

/-- A coordinate with fewer than two components (indexing it raises). -/
def shortCoordB (c : Coord) : Bool := decide (c.length < 2)

/-- A ring containing a too-short coordinate. -/
def shortRingB (r : LinRing) : Bool := r.any shortCoordB

/-- A polygon containing a too-short coordinate. -/
def shortPolyB (p : Poly) : Bool := p.any shortRingB

/-- A feature whose transformed part (MultiPolygon coordinates) contains a
too-short coordinate. -/
def shortFeatureB (f : Feature) : Bool :=
  match f.geometry with
  | Geometry.multiPolygon ps => ps.any shortPolyB
  | _ => false

/-- A document on which the conversion loop raises: some MultiPolygon ring
holds a coordinate with fewer than two components. -/
def hasShortCoord (d : Doc) : Bool := d.features.any shortFeatureB

/-- Total version of the coordinate step, agreeing with `transformCoord`
wherever the latter succeeds. -/
def okCoord (T : Rat → Rat → Rat × Rat) (c : Coord) : Coord :=
  match c with
  | x :: y :: _ => [(T x y).1, (T x y).2]
  | _ => []

/-- Total version of the ring step. -/
def okRing (T : Rat → Rat → Rat × Rat) (r : LinRing) : LinRing :=
  r.map (okCoord T)

/-- Total version of the polygon step. -/
def okPoly (T : Rat → Rat → Rat × Rat) (p : Poly) : Poly :=
  p.map (okRing T)

/-- Total version of the per-feature geometry action. -/
def okGeom (T : Rat → Rat → Rat × Rat) : Geometry → Geometry
  | Geometry.multiPolygon ps => Geometry.multiPolygon (ps.map (okPoly T))
  | g => g

/-- Total version of the per-feature action. -/
def okFeature (T : Rat → Rat → Rat × Rat) (f : Feature) : Feature :=
  { id := f.id, geometry := okGeom T f.geometry, properties := f.properties }

/-- The nesting skeleton of a geometry: for each polygon part, the list of
its ring lengths (empty for a Point, a singleton for a Polygon). -/
def geomShape : Geometry → List (List Nat)
  | Geometry.point _ => []
  | Geometry.polygon rs => [rs.map List.length]
  | Geometry.multiPolygon ps => ps.map (fun rs => rs.map List.length)

/-- All rings of a geometry, in traversal order. -/
def ringsOf : Geometry → List LinRing
  | Geometry.point _ => []
  | Geometry.polygon rs => rs
  | Geometry.multiPolygon ps => ps.flatten

/-- Whether a geometry is MultiPolygon-typed. -/
def isMultiPolygonGeom : Geometry → Bool
  | Geometry.multiPolygon _ => true
  | _ => false

/-- Whether an `Except` value is a success. -/
def isOkE {ε α : Type} : Except ε α → Bool
  | Except.ok _ => true
  | Except.error _ => false

/-- Example transformer: swap the two components (a concrete pure map). -/
def exTr : Rat → Rat → Rat × Rat := fun x y => (y, x)

/-- Example input: a document with one MultiPolygon feature whose single
ring is closed, plus one Point feature left untouched by conversion. -/
def exDocC2 : Doc :=
  { crs := { type := ("name"), name := ("EPSG:2926") },
    features :=
      [{ id := some (Value.int 1),
         geometry := Geometry.multiPolygon [[[[0, 0], [1, 0], [0, 1], [0, 0]]]],
         properties := [] },
       { id := some (Value.int 2), geometry := Geometry.point [5, 6],
         properties := [] }] }

/-- The conversion of `exDocC2` under `exTr`. -/
def exDocC2res : Doc :=
  { crs := wgs84CRS,
    features :=
      [{ id := some (Value.int 1),
         geometry := Geometry.multiPolygon [[[[0, 0], [0, 1], [1, 0], [0, 0]]]],
         properties := [] },
       { id := some (Value.int 2), geometry := Geometry.point [5, 6],
         properties := [] }] }

/-- Example input: a document containing a three-component coordinate
(malformed per the spec, yet accepted by the code). -/
def exDocC3 : Doc :=
  { crs := { type := ("name"), name := ("EPSG:2926") },
    features :=
      [{ id := some (Value.int 1),
         geometry := Geometry.multiPolygon [[[[1, 2, 3]]]],
         properties := [] }] }

/-- The conversion of `exDocC3` under `exTr`: the extra component is
silently dropped and the document is written out. -/
def exDocC3res : Doc :=
  { crs := wgs84CRS,
    features :=
      [{ id := some (Value.int 1),
         geometry := Geometry.multiPolygon [[[[2, 1]]]],
         properties := [] }] }

/-- Example input: a document containing a one-component coordinate, on
which the conversion loop raises an index error. -/
def exDocShort : Doc :=
  { crs := { type := ("name"), name := ("EPSG:2926") },
    features :=
      [{ id := some (Value.int 1),
         geometry := Geometry.multiPolygon [[[[5]]]],
         properties := [] }] }

/-- Example input: a raw document lacking the `crs` member, on which the
split script raises a KeyError. -/
def exRawNoCrs : RawDoc := { crs := none, features := [] }

/-- A zone row as loaded from the designated-QOZs CSV
(`convert_qozs_to_geojson.py`, lines 31-38). -/
structure QOZ where
  state : String
  county : String
  tract_id : String
  zone_type : String
  year_range : String
deriving DecidableEq

/-- The fixed allow-list of recognized state names (`load_qozs_csv`,
lines 15-24). -/
def valid_states : List String :=
  [("Alabama"), ("Alaska"), ("Arizona"), ("Arkansas"), ("California"),
   ("Colorado"), ("Connecticut"), ("Delaware"), ("Florida"), ("Georgia"),
   ("Hawaii"), ("Idaho"), ("Illinois"), ("Indiana"), ("Iowa"), ("Kansas"),
   ("Kentucky"), ("Louisiana"), ("Maine"), ("Maryland"), ("Massachusetts"),
   ("Michigan"), ("Minnesota"), ("Mississippi"), ("Missouri"), ("Montana"),
   ("Nebraska"), ("Nevada"), ("New Hampshire"), ("New Jersey"),
   ("New Mexico"), ("New York"), ("North Carolina"), ("North Dakota"),
   ("Ohio"), ("Oklahoma"), ("Oregon"), ("Pennsylvania"), ("Rhode Island"),
   ("South Carolina"), ("South Dakota"), ("Tennessee"), ("Texas"), ("Utah"),
   ("Vermont"), ("Virginia"), ("Washington"), ("West Virginia"),
   ("Wisconsin"), ("Wyoming")]

/-- `load_qozs_csv` (lines 12-39): keep rows with at least five fields whose
first field is non-empty and in the allow-list, in input order, taking the
first five fields of each kept row. -/
def load_qozs_csv : List (List String) → List QOZ
  | [] => []
  | row :: rest =>
    match row with
    | s :: c :: t :: z :: y :: _ =>
        if s ≠ ("") ∧ s ∈ valid_states then
          QOZ.mk s c t z y :: load_qozs_csv rest
        else load_qozs_csv rest
    | _ => load_qozs_csv rest

/-- The row-selection predicate as the spec states it: at least five
fields, non-empty first field, first field in the allow-list. -/
def rowKeep (row : List String) : Bool :=
  decide (5 ≤ row.length ∧ row.headD ("") ≠ ("") ∧ row.headD ("") ∈ valid_states)

/-- The record built from the first five fields of a kept row. -/
def rowToQoz (row : List String) : QOZ :=
  QOZ.mk (row.getD 0 ("")) (row.getD 1 ("")) (row.getD 2 (""))
    (row.getD 3 ("")) (row.getD 4 (""))

/-- The fallback placeholder geometry used when a boundary lookup fails
(`create_qozs_geojson`, lines 122-124): a point at the default
coordinates (-122.3, 47.6). -/
def defaultPoint : Geometry := Geometry.point [(-1223) / 10, 476 / 10]

/-- The description string of an output feature. -/
def qozDescription (q : QOZ) (suffix : String) : String :=
  ("Opportunity Zone in ") ++ q.county ++ (", ") ++ q.state ++ suffix

/-- The properties mapping of an output feature (lines 105-113/126-134). -/
def qozProps (i : Nat) (q : QOZ) (suffix : String) : List (String × Value) :=
  [(("OBJECTID"), Value.int (i + 1)), (("STATE"), Value.str q.state),
   (("COUNTY"), Value.str q.county), (("TRACT_ID"), Value.str q.tract_id),
   (("ZONE_TYPE"), Value.str q.zone_type),
   (("YEAR_RANGE"), Value.str q.year_range),
   (("DESCRIPTION"), Value.str (qozDescription q suffix))]

/-- One loop iteration of `create_qozs_geojson` (lines 93-139): on a
successful boundary lookup emit the boundary geometry (success counter 1),
otherwise emit the placeholder point feature (success counter 0).  `L`
abstracts the `get_census_tract_boundary` network call, which returns
`None` on any failure. -/
def processZone (L : QOZ → Option Geometry) (i : Nat) (q : QOZ) :
    Feature × Nat :=
  match L q with
  | some g =>
      ({ id := some (Value.int (i + 1)), geometry := g,
         properties := qozProps i q ("") }, 1)
  | none =>
      ({ id := some (Value.int (i + 1)), geometry := defaultPoint,
         properties := qozProps i q (" (point only)") }, 0)

/-- The enumerated loop over the processed zones, accumulating the feature
list and the success count. -/
def processZones (L : QOZ → Option Geometry) :
    Nat → List QOZ → List Feature × Nat
  | _, [] => ([], 0)
  | i, q :: qs =>
      let fr := processZone L i q
      let rest := processZones L (i + 1) qs
      (fr.1 :: rest.1, fr.2 + rest.2)

/-- `create_qozs_geojson`: only the first 100 zones are processed
(line 89), starting the enumeration at 0. -/
def create_qozs_geojson (L : QOZ → Option Geometry) (qozs : List QOZ) :
    List Feature × Nat :=
  processZones L 0 (qozs.take 100)

/-- The number of processed rows whose boundary lookup fails. -/
def failedLookups (L : QOZ → Option Geometry) (qozs : List QOZ) : Nat :=
  ((qozs.take 100).filter (fun q => (L q).isNone)).length

/-- Example zone row. -/
def exQoz : QOZ :=
  { state := ("Washington"), county := ("King"),
    tract_id := ("53033005304"), zone_type := ("Low-Income Community"),
    year_range := ("2018-2028") }

/-- Example boundary lookup that fails on every row. -/
def exLnone : QOZ → Option Geometry := fun _ => none

/-- A row of the census-tract boundary table, keyed by its 11-digit GEOID
(`qozs_to_geojson_bulk.py`, lines 18-19). -/
structure Tract where
  geoid : String
  geometry : Geometry
deriving DecidableEq

/-- The zero digit. -/
def zeroChar : Char := '0'

/-- The plus sign. -/
def plusChar : Char := '+'

/-- The minus sign. -/
def minusChar : Char := '-'

/-- Python `str.zfill(w)`: left-pad with zeros to width `w`, keeping a
leading sign in front of the padding. -/
def zfill (s : String) (w : Nat) : String :=
  if w ≤ s.length then s
  else
    match s.data with
    | c :: rest =>
        if c = plusChar ∨ c = minusChar then
          String.mk (c :: (List.replicate (w - s.length) zeroChar ++ rest))
        else String.mk (List.replicate (w - s.length) zeroChar ++ s.data)
    | [] => String.mk (List.replicate w zeroChar)

/-- The padded tract code used as join key (line 15): `str.zfill(11)`. -/
def pad11 (s : String) : String := zfill s 11

/-- The inner merge of the tract table with the zone table on
`GEOID = TRACTCE` (line 22): pandas emits one output row per matching
pair, in left-table order. -/
def mergeInner (tracts : List Tract) (qozs : List QOZ) :
    List (Tract × QOZ) :=
  tracts.flatMap (fun t =>
    (qozs.filter (fun q => pad11 q.tract_id == t.geoid)).map (fun q => (t, q)))

/-- Example tract table with distinct GEOIDs. -/
def exTracts : List Tract :=
  [{ geoid := ("01073001100"),
     geometry := Geometry.polygon [[[0, 0], [1, 0], [0, 1], [0, 0]]] },
   { geoid := ("99999999999"),
     geometry := Geometry.polygon [[[2, 2], [3, 2], [2, 3], [2, 2]]] }]

/-- Example zone table: the first row matches a tract, the second does not. -/
def exQozsC8 : List QOZ :=
  [{ state := ("Alabama"), county := ("Jefferson"),
     tract_id := ("1073001100"), zone_type := ("Low-Income Community"),
     year_range := ("2018-2028") },
   { state := ("Texas"), county := ("Travis"), tract_id := ("9999"),
     zone_type := ("Low-Income Community"), year_range := ("2018-2028") }]

/-- `null_if_missing` (`generate_economic_data.py`, lines 55-56): both data
dicts store string values and lookups default to the empty string, so the
reachable inputs are strings; the empty string marks a missing value. -/
def null_if_missing (val : String) : String :=
  if val = ("") then ("NULL") else val

/-- The fixed column header (lines 59-62). -/
def csvHeader : List String :=
  [("region"), ("gdp_growth"), ("employment_rate"),
   ("property_appreciation"), ("builder_accessibility"),
   ("international_accessibility"), ("last_updated")]

/-- One output row (lines 66-74): gdp and employment go through
`null_if_missing` on the defaulted lookup; the three placeholder columns
are written as empty strings. -/
def makeRow (gdp emp : String → Option String) (today country : String) :
    List String :=
  [country,
   null_if_missing ((gdp country).getD ("")),
   null_if_missing ((emp country).getD ("")),
   (""), (""), (""), today]

/-- The whole output table: header row, then one row per country. -/
def economic_csv (gdp emp : String → Option String) (today : String)
    (countries : List String) : List (List String) :=
  csvHeader :: countries.map (makeRow gdp emp today)

/-- Example lookup with no data for any country. -/
def exEmptyLookup : String → Option String := fun _ => none

theorem splitParts_length (oid : String) (props : List (String × Value))
    (total : Nat) : ∀ (ps : List Poly) (j : Nat),
    (splitParts oid props total j ps).length = ps.length := by
  intro ps
  induction ps with
  | nil => intro j; rfl
  | cons p ps ih =>
      intro j
      simp [splitParts, ih]

theorem splitParts_get (oid : String) (props : List (String × Value))
    (total : Nat) : ∀ (ps : List Poly) (j i : Nat) (hi : i < ps.length)
    (hi' : i < (splitParts oid props total j ps).length),
    (splitParts oid props total j ps).get ⟨i, hi'⟩ =
      mkPart oid props total (j + i) (ps.get ⟨i, hi⟩) := by
  intro ps
  induction ps with
  | nil => intro j i hi; exact absurd hi (by simp)
  | cons p ps ih =>
      intro j i hi hi'
      cases i with
      | zero => rfl
      | succ n =>
          have hn : n < ps.length := Nat.lt_of_succ_lt_succ hi
          have hn' : n < (splitParts oid props total (j + 1) ps).length := by
            rw [splitParts_length]; exact hn
          have h1 : (splitParts oid props total j (p :: ps)).get ⟨n + 1, hi'⟩ =
              (splitParts oid props total (j + 1) ps).get ⟨n, hn'⟩ := rfl
          have h2 : j + 1 + n = j + (n + 1) := by omega
          rw [h1, ih (j + 1) n hn hn', h2]
          rfl

theorem splitParts_getElem? (oid : String) (props : List (String × Value))
    (total : Nat) : ∀ (ps : List Poly) (j i : Nat),
    (splitParts oid props total j ps)[i]? =
      (ps[i]?).map (fun p => mkPart oid props total (j + i) p) := by
  intro ps
  induction ps with
  | nil => intro j i; cases i <;> rfl
  | cons p ps ih =>
      intro j i
      cases i with
      | zero => simp [splitParts]
      | succ n =>
          have h2 : j + 1 + n = j + (n + 1) := by omega
          have := ih (j + 1) n
          rw [h2] at this
          simpa [splitParts] using this

theorem splitFeature_length (f : Feature) :
    (splitFeature f).length = partCount f := by
  obtain ⟨i, g, props⟩ := f
  cases g with
  | multiPolygon ps =>
      show (splitParts _ _ ps.length 0 ps).length = ps.length
      exact splitParts_length _ _ _ ps 0
  | point c => rfl
  | polygon p => rfl

theorem splitFeature_of_multiPolygon (f : Feature) (ps : List Poly) (oid : Value)
    (hg : f.geometry = Geometry.multiPolygon ps) (hid : f.id = some oid) :
    splitFeature f = splitParts (pyStr oid) f.properties ps.length 0 ps := by
  obtain ⟨i, g, props⟩ := f
  simp only at hg hid
  subst hg
  subst hid
  rfl

theorem splitFeature_of_polygon (f : Feature)
    (h : isPolygonGeom f.geometry = true) : splitFeature f = [f] := by
  obtain ⟨i, g, props⟩ := f
  cases g with
  | polygon p => rfl
  | point c => simp [isPolygonGeom] at h
  | multiPolygon ps => simp [isPolygonGeom] at h

theorem flatMap_splitFeature_self :
    ∀ (l : List Feature), (∀ f ∈ l, isPolygonGeom f.geometry = true) →
      l.flatMap splitFeature = l := by
  intro l
  induction l with
  | nil => intro _; rfl
  | cons f fs ih =>
      intro h
      have hf : splitFeature f = [f] :=
        splitFeature_of_polygon f (h f (List.mem_cons_self f fs))
      have hfs : fs.flatMap splitFeature = fs :=
        ih (fun g hg => h g (List.mem_cons_of_mem f hg))
      simp [List.flatMap_cons, hf, hfs]

/-- C1: a Feature whose Geometry is a MultiPolygon with K parts is replaced
by exactly K Features — the i-th output has Geometry type Polygon with the
i-th constituent polygon's ring sequence, id `\x7boriginalId\x7d_\x7bi\x7d`, and
properties equal to the original properties plus `polygon_index = i` and
`total_polygons = K` — and the total output feature count is the sum of
part counts over MultiPolygon features plus the count of other features. -/
theorem C1_split_correctness (d : Doc) (f : Feature) (ps : List Poly)
    (oid : Value) (hg : f.geometry = Geometry.multiPolygon ps)
    (hid : f.id = some oid) :
    (splitFeature f).length = ps.length ∧
    (∀ (i : Nat) (p : Poly), ps[i]? = some p →
      (splitFeature f)[i]? = some
        (Feature.mk (some (Value.str (pyStr oid ++ "_" ++ toString i)))
          (Geometry.polygon p)
          (dictInsert (dictInsert f.properties ("polygon_index") (Value.int i))
            ("total_polygons") (Value.int ps.length)))) ∧
    (split_multipolygon d).features.length = (d.features.map partCount).sum := by
  have hsf : splitFeature f = splitParts (pyStr oid) f.properties ps.length 0 ps :=
    splitFeature_of_multiPolygon f ps oid hg hid
  refine ⟨?_, ?_, ?_⟩
  · rw [hsf, splitParts_length]
  · intro i p hp
    rw [hsf, splitParts_getElem?, hp]
    simp [mkPart]
  · have hc : ∀ g ∈ d.features, (List.length ∘ splitFeature) g = partCount g := by
      intro g _
      exact splitFeature_length g
    simp only [split_multipolygon, List.length_flatMap]
    rw [List.map_congr_left hc]

/-- C1 witness: the split of a concrete two-part MultiPolygon feature. -/
theorem C1_split_correctness_witness :
    exFC1.geometry = Geometry.multiPolygon exPsC1 ∧
    exFC1.id = some (Value.str ("7")) ∧
    ((splitFeature exFC1).length = exPsC1.length ∧
      (∀ (i : Nat) (p : Poly), exPsC1[i]? = some p →
        (splitFeature exFC1)[i]? = some
          (Feature.mk
            (some (Value.str (pyStr (Value.str ("7")) ++ "_" ++ toString i)))
            (Geometry.polygon p)
            (dictInsert
              (dictInsert exFC1.properties ("polygon_index") (Value.int i))
              ("total_polygons") (Value.int exPsC1.length)))) ∧
      (split_multipolygon exDC1).features.length =
        (exDC1.features.map partCount).sum) :=
  ⟨rfl, rfl, C1_split_correctness exDC1 exFC1 exPsC1 (Value.str ("7")) rfl rfl⟩

/-- C4: on a document whose features are all Polygon-typed,
`split_multipolygon` returns the document unchanged. -/
theorem C4_idempotence (d : Doc)
    (h : ∀ f ∈ d.features, isPolygonGeom f.geometry = true) :
    split_multipolygon d = d := by
  obtain ⟨c, fs⟩ := d
  simp only [split_multipolygon]
  exact congrArg (Doc.mk c) (flatMap_splitFeature_self fs h)

/-- C4 witness: a concrete Polygon-only document is returned unchanged. -/
theorem C4_idempotence_witness :
    (∀ f ∈ exDC4.features, isPolygonGeom f.geometry = true) ∧
      split_multipolygon exDC4 = exDC4 :=
  ⟨by decide, C4_idempotence exDC4 (by decide)⟩

theorem mapE_ok_eq_map {ε α β : Type} (f : α → Except ε β) (g : α → β)
    (hg : ∀ a b, f a = Except.ok b → b = g a) :
    ∀ (xs : List α) (ys : List β), mapE f xs = Except.ok ys → ys = xs.map g := by
  intro xs
  induction xs with
  | nil =>
      intro ys h
      injection h with h2
      rw [← h2]
      rfl
  | cons x xs ih =>
      intro ys h
      cases hfx : f x with
      | error e => simp [mapE, hfx] at h
      | ok y =>
          cases hrest : mapE f xs with
          | error e => simp [mapE, hfx, hrest] at h
          | ok ys2 =>
              simp only [mapE, hfx, hrest] at h
              injection h with h2
              rw [← h2, List.map_cons, ← hg x y hfx, ih ys2 hrest]

theorem mapE_isOk {ε α β : Type} (f : α → Except ε β) (s : α → Bool)
    (hs : ∀ a, isOkE (f a) = !s a) :
    ∀ xs : List α, isOkE (mapE f xs) = !xs.any s := by
  intro xs
  induction xs with
  | nil => simp [mapE, isOkE]
  | cons x xs ih =>
      cases hfx : f x with
      | error e =>
          have hx : s x = true := by
            have h1 := hs x
            rw [hfx] at h1
            simpa [isOkE] using h1.symm
          simp [mapE, hfx, hx, isOkE]
      | ok y =>
          have hx : s x = false := by
            have h1 := hs x
            rw [hfx] at h1
            simpa [isOkE] using h1.symm
          cases hrest : mapE f xs with
          | error e =>
              rw [hrest] at ih
              simp only [mapE, hfx, hrest, List.any_cons, hx]
              simpa [isOkE] using ih
          | ok ys =>
              rw [hrest] at ih
              simp only [mapE, hfx, hrest, List.any_cons, hx]
              simpa [isOkE] using ih

theorem isOkE_transformCoord (T : Rat → Rat → Rat × Rat) (c : Coord) :
    isOkE (transformCoord T c) = !shortCoordB c := by
  rcases c with _ | ⟨x, _ | ⟨y, t⟩⟩
  · rfl
  · rfl
  · have hx : shortCoordB (x :: y :: t) = false := by
      simp [shortCoordB]
    simp [transformCoord, isOkE, hx]

theorem isOkE_transformRing (T : Rat → Rat → Rat × Rat) (r : LinRing) :
    isOkE (transformRing T r) = !shortRingB r :=
  mapE_isOk (transformCoord T) shortCoordB (isOkE_transformCoord T) r

theorem isOkE_transformPoly (T : Rat → Rat → Rat × Rat) (p : Poly) :
    isOkE (transformPoly T p) = !shortPolyB p :=
  mapE_isOk (transformRing T) shortRingB (isOkE_transformRing T) p

theorem isOkE_transformFeature (T : Rat → Rat → Rat × Rat) (f : Feature) :
    isOkE (transformFeature T f) = !shortFeatureB f := by
  obtain ⟨i, g, props⟩ := f
  cases g with
  | point c => rfl
  | polygon rs => rfl
  | multiPolygon ps =>
      have h := mapE_isOk (transformPoly T) shortPolyB (isOkE_transformPoly T) ps
      cases hm : mapE (transformPoly T) ps with
      | error e =>
          rw [hm] at h
          simp only [transformFeature, hm, shortFeatureB]
          simpa [isOkE] using h
      | ok ps2 =>
          rw [hm] at h
          simp only [transformFeature, hm, shortFeatureB]
          simpa [isOkE] using h

theorem isOkE_convert (T : Rat → Rat → Rat × Rat) (d : Doc) :
    isOkE (convert_coordinates T d) = !hasShortCoord d := by
  have h := mapE_isOk (transformFeature T) shortFeatureB
    (isOkE_transformFeature T) d.features
  cases hm : mapE (transformFeature T) d.features with
  | error e =>
      rw [hm] at h
      simp only [convert_coordinates, hm, hasShortCoord]
      simpa [isOkE] using h
  | ok fs =>
      rw [hm] at h
      simp only [convert_coordinates, hm, hasShortCoord]
      simpa [isOkE] using h

theorem transformCoord_ok (T : Rat → Rat → Rat × Rat) :
    ∀ (c c2 : Coord), transformCoord T c = Except.ok c2 → c2 = okCoord T c := by
  intro c c2 h
  rcases c with _ | ⟨x, _ | ⟨y, t⟩⟩
  · simp [transformCoord] at h
  · simp [transformCoord] at h
  · simp only [transformCoord] at h
    injection h with h2
    rw [← h2]
    rfl

theorem transformRing_ok (T : Rat → Rat → Rat × Rat) :
    ∀ (r r2 : LinRing), transformRing T r = Except.ok r2 → r2 = okRing T r :=
  fun r r2 h =>
    mapE_ok_eq_map (transformCoord T) (okCoord T) (transformCoord_ok T) r r2 h

theorem transformPoly_ok (T : Rat → Rat → Rat × Rat) :
    ∀ (p p2 : Poly), transformPoly T p = Except.ok p2 → p2 = okPoly T p :=
  fun p p2 h =>
    mapE_ok_eq_map (transformRing T) (okRing T) (transformRing_ok T) p p2 h

theorem transformFeature_ok (T : Rat → Rat → Rat × Rat) :
    ∀ (f f2 : Feature), transformFeature T f = Except.ok f2 → f2 = okFeature T f := by
  intro f f2 h
  obtain ⟨i, g, props⟩ := f
  cases g with
  | point c =>
      simp only [transformFeature] at h
      injection h with h2
      rw [← h2]
      rfl
  | polygon rs =>
      simp only [transformFeature] at h
      injection h with h2
      rw [← h2]
      rfl
  | multiPolygon ps =>
      cases hm : mapE (transformPoly T) ps with
      | error e => simp [transformFeature, hm] at h
      | ok ps2 =>
          simp only [transformFeature, hm] at h
          injection h with h2
          have hps : ps2 = ps.map (okPoly T) :=
            mapE_ok_eq_map (transformPoly T) (okPoly T) (transformPoly_ok T) ps ps2 hm
          rw [← h2, hps]
          rfl

theorem convert_ok (T : Rat → Rat → Rat × Rat) (d d2 : Doc)
    (h : convert_coordinates T d = Except.ok d2) :
    d2 = { crs := wgs84CRS, features := d.features.map (okFeature T) } := by
  cases hm : mapE (transformFeature T) d.features with
  | error e => simp [convert_coordinates, hm] at h
  | ok fs =>
      simp only [convert_coordinates, hm] at h
      injection h with h2
      have hfs : fs = d.features.map (okFeature T) :=
        mapE_ok_eq_map (transformFeature T) (okFeature T) (transformFeature_ok T)
          d.features fs hm
      rw [← h2, hfs]

/-- C2: a successful reprojection preserves the feature count and, feature
by feature, the polygon-part/ring/coordinate-count skeleton in order; and
every ring that was closed (first coordinate equals last) before the
transformation is closed after it. -/
theorem C2_reprojection_preserves (T : Rat → Rat → Rat × Rat) (d d2 : Doc)
    (h : convert_coordinates T d = Except.ok d2) :
    d2.features.length = d.features.length ∧
    List.Forall₂ (fun f f2 =>
      geomShape f2.geometry = geomShape f.geometry ∧
      List.Forall₂ (fun r r2 => r2.length = r.length ∧
        (r.head? = r.getLast? → r2.head? = r2.getLast?))
        (ringsOf f.geometry) (ringsOf f2.geometry))
      d.features d2.features := by
  have hd := convert_ok T d d2 h
  subst hd
  refine ⟨by simp, ?_⟩
  rw [List.forall₂_map_right_iff, List.forall₂_same]
  intro f _
  obtain ⟨i, g, props⟩ := f
  cases g with
  | point c => exact ⟨rfl, List.Forall₂.nil⟩
  | polygon rs =>
      refine ⟨rfl, ?_⟩
      simp only [okFeature, okGeom, ringsOf]
      rw [List.forall₂_same]
      exact fun r _ => ⟨rfl, fun hc => hc⟩
  | multiPolygon ps =>
      constructor
      · simp [okFeature, okGeom, geomShape, okPoly, okRing, List.map_map,
          Function.comp]
      · simp only [okFeature, okGeom, ringsOf]
        have hfl : (ps.map (okPoly T)).flatten = ps.flatten.map (okRing T) := by
          rw [List.map_flatten]
          rfl
        rw [hfl, List.forall₂_map_right_iff, List.forall₂_same]
        intro r _
        refine ⟨by simp [okRing], ?_⟩
        intro hc
        simp only [okRing, List.head?_map, List.getLast?_map, hc]

/-- C2 witness: a concrete document with a closed MultiPolygon ring and a
Point feature, reprojected by a concrete transformer. -/
theorem C2_reprojection_preserves_witness :
    convert_coordinates exTr exDocC2 = Except.ok exDocC2res ∧
    (exDocC2res.features.length = exDocC2.features.length ∧
      List.Forall₂ (fun f f2 =>
        geomShape f2.geometry = geomShape f.geometry ∧
        List.Forall₂ (fun r r2 => r2.length = r.length ∧
          (r.head? = r.getLast? → r2.head? = r2.getLast?))
          (ringsOf f.geometry) (ringsOf f2.geometry))
        exDocC2.features exDocC2res.features) :=
  ⟨rfl, C2_reprojection_preserves exTr exDocC2 exDocC2res rfl⟩

/-- C3 counterexample: a coordinate with three components is malformed per
the claim (not exactly two numeric components), yet the conversion succeeds
— the extra component is silently dropped — and the output is persisted
with exit status 0, so the operation does not fail with a TransformError. -/
theorem C3_counterexample :
    convert_main exTr exDocC3 = (some exDocC3res, 0) ∧
    (convert_main exTr exDocC3).1 ≠ none := by
  refine ⟨rfl, by decide⟩

/-- C3 (amended): the conversion fails only when some coordinate in a
MultiPolygon ring has fewer than two components; the raised error is a bare
index error carrying no feature index or coordinate position, and when it
is raised nothing is persisted and the exit status is 1. -/
theorem C3_short_coord_fails (T : Rat → Rat → Rat × Rat) (d : Doc)
    (h : hasShortCoord d = true) :
    convert_coordinates T d = Except.error TransformErr.indexError ∧
    convert_main T d = (none, 1) := by
  have hok := isOkE_convert T d
  rw [h] at hok
  cases hc : convert_coordinates T d with
  | ok d2 =>
      rw [hc] at hok
      simp [isOkE] at hok
  | error e =>
      cases e
      exact ⟨rfl, by simp [convert_main, hc]⟩

/-- C3 witness: a document with a one-component coordinate makes the
conversion fail, and nothing is written. -/
theorem C3_short_coord_fails_witness :
    hasShortCoord exDocShort = true ∧
    (convert_coordinates exTr exDocShort = Except.error TransformErr.indexError ∧
      convert_main exTr exDocShort = (none, 1)) :=
  ⟨rfl, C3_short_coord_fails exTr exDocShort rfl⟩

/-- C10: a successful conversion leaves every non-MultiPolygon feature
(Point or Polygon) entirely unchanged — its coordinates stay in the source
system — while the document-level CRS metadata is overwritten to name
EPSG:4326. -/
theorem C10_frame_effect (T : Rat → Rat → Rat × Rat) (d d2 : Doc)
    (h : convert_coordinates T d = Except.ok d2) :
    d2.crs = wgs84CRS ∧ d2.crs.name = ("EPSG:4326") ∧
    ∀ (i : Nat) (f : Feature), d.features[i]? = some f →
      isMultiPolygonGeom f.geometry = false → d2.features[i]? = some f := by
  have hd := convert_ok T d d2 h
  subst hd
  refine ⟨rfl, rfl, ?_⟩
  intro i f hf hmp
  simp only [List.getElem?_map, hf, Option.map_some]
  obtain ⟨iid, g, props⟩ := f
  cases g with
  | multiPolygon ps => simp [isMultiPolygonGeom] at hmp
  | point c => rfl
  | polygon rs => rfl

/-- C10 witness: the Point feature of a concrete document keeps its
source-system coordinates while the output document claims EPSG:4326. -/
theorem C10_frame_effect_witness :
    convert_coordinates exTr exDocC2 = Except.ok exDocC2res ∧
    (exDocC2res.crs = wgs84CRS ∧ exDocC2res.crs.name = ("EPSG:4326") ∧
      ∀ (i : Nat) (f : Feature), exDocC2.features[i]? = some f →
        isMultiPolygonGeom f.geometry = false →
          exDocC2res.features[i]? = some f) :=
  ⟨rfl, C10_frame_effect exTr exDocC2 exDocC2res rfl⟩

/-- C5 (amended): the coordinate-conversion script exits with status 0 on
success (writing its output) and 1 on failure (writing nothing); the
splitting script prints its error but exits with status 0 on every run,
including failing ones. -/
theorem C5_exit_codes :
    (∀ (T : Rat → Rat → Rat × Rat) (d d2 : Doc),
      convert_coordinates T d = Except.ok d2 → convert_main T d = (some d2, 0)) ∧
    (∀ (T : Rat → Rat → Rat × Rat) (d : Doc) (e : TransformErr),
      convert_coordinates T d = Except.error e → convert_main T d = (none, 1)) ∧
    (∀ rd : RawDoc, (split_main rd).2 = 0) := by
  refine ⟨?_, ?_, ?_⟩
  · intro T d d2 h
    simp [convert_main, h]
  · intro T d e h
    simp [convert_main, h]
  · intro rd
    cases hr : split_run rd <;> simp [split_main, hr]

/-- C5 counterexample: running the split script on a document without a
`crs` member raises a KeyError (an unhandled top-level failure: no output
is produced), yet the process exit status is 0, not 1. -/
theorem C5_counterexample :
    split_run exRawNoCrs = Except.error (SplitErr.keyError ("crs")) ∧
    split_main exRawNoCrs = (none, 0) ∧ (split_main exRawNoCrs).2 ≠ 1 :=
  ⟨rfl, rfl, by decide⟩

/-- C5 witness: concrete runs of both scripts exercising every exit path. -/
theorem C5_exit_codes_witness :
    convert_coordinates exTr exDocC2 = Except.ok exDocC2res ∧
    convert_main exTr exDocC2 = (some exDocC2res, 0) ∧
    convert_coordinates exTr exDocShort = Except.error TransformErr.indexError ∧
    convert_main exTr exDocShort = (none, 1) ∧
    (split_main exRawNoCrs).2 = 0 :=
  ⟨rfl, C5_exit_codes.1 exTr exDocC2 exDocC2res rfl, rfl,
    C5_exit_codes.2.1 exTr exDocShort TransformErr.indexError rfl,
    C5_exit_codes.2.2 exRawNoCrs⟩

theorem processZones_length (L : QOZ → Option Geometry) :
    ∀ (qs : List QOZ) (i : Nat), (processZones L i qs).1.length = qs.length := by
  intro qs
  induction qs with
  | nil => intro i; rfl
  | cons q qs ih =>
      intro i
      simp [processZones, ih]

theorem processZones_getElem? (L : QOZ → Option Geometry) :
    ∀ (qs : List QOZ) (i j : Nat),
      ((processZones L i qs).1)[j]? =
        (qs[j]?).map (fun q => (processZone L (i + j) q).1) := by
  intro qs
  induction qs with
  | nil => intro i j; cases j <;> rfl
  | cons q qs ih =>
      intro i j
      cases j with
      | zero => simp [processZones]
      | succ n =>
          have h2 : i + 1 + n = i + (n + 1) := by omega
          have h3 := ih (i + 1) n
          rw [h2] at h3
          simpa [processZones] using h3

theorem processZones_count (L : QOZ → Option Geometry) :
    ∀ (qs : List QOZ) (i : Nat),
      (processZones L i qs).2 = (qs.filter (fun q => (L q).isSome)).length := by
  intro qs
  induction qs with
  | nil => intro i; rfl
  | cons q qs ih =>
      intro i
      cases hq : L q with
      | some g =>
          simp [processZones, processZone, hq, ih, List.filter_cons]
          omega
      | none =>
          simp [processZones, processZone, hq, ih, List.filter_cons]

/-- C6 (amended): every processed zone row yields exactly one output
feature; a failed boundary lookup is non-fatal and yields the placeholder
Point feature at the default coordinates; the counter the script maintains
and reports is the number of successful lookups (failures are only
derivable as processed minus successes). -/
theorem C6_lookup_fallback (L : QOZ → Option Geometry) (qozs : List QOZ) :
    (create_qozs_geojson L qozs).1.length = (qozs.take 100).length ∧
    (∀ (j : Nat) (q : QOZ), (qozs.take 100)[j]? = some q → L q = none →
      ((create_qozs_geojson L qozs).1)[j]? = some
        (Feature.mk (some (Value.int (j + 1))) defaultPoint
          (qozProps j q (" (point only)")))) ∧
    (create_qozs_geojson L qozs).2 =
      ((qozs.take 100).filter (fun q => (L q).isSome)).length := by
  refine ⟨processZones_length L _ 0, ?_, processZones_count L _ 0⟩
  intro j q hj hq
  rw [create_qozs_geojson, processZones_getElem?, hj]
  simp [processZone, hq]

/-- C6 counterexample: on a run where the single processed row's lookup
fails, the counter the script reports is 0, not the failure count 1 — the
code counts successes, not failures. -/
theorem C6_counterexample :
    failedLookups exLnone [exQoz] = 1 ∧
    (create_qozs_geojson exLnone [exQoz]).2 = 0 ∧
    (create_qozs_geojson exLnone [exQoz]).2 ≠ failedLookups exLnone [exQoz] :=
  ⟨rfl, rfl, by decide⟩

/-- C6 witness: a concrete failing lookup produces the placeholder
feature and the run still emits one feature for the row. -/
theorem C6_lookup_fallback_witness :
    ([exQoz].take 100)[0]? = some exQoz ∧ exLnone exQoz = none ∧
    ((create_qozs_geojson exLnone [exQoz]).1)[0]? = some
      (Feature.mk (some (Value.int (0 + 1))) defaultPoint
        (qozProps 0 exQoz (" (point only)"))) ∧
    (create_qozs_geojson exLnone [exQoz]).1.length = ([exQoz].take 100).length :=
  ⟨rfl, rfl, (C6_lookup_fallback exLnone [exQoz]).2.1 0 exQoz rfl rfl,
    (C6_lookup_fallback exLnone [exQoz]).1⟩

/-- C7: the CSV loader returns exactly the rows with at least five fields
whose non-empty first field is in the fixed allow-list, in input order,
and the allow-list consists of fifty distinct state names. -/
theorem C7_csv_loader (rows : List (List String)) :
    load_qozs_csv rows = (rows.filter rowKeep).map rowToQoz ∧
    valid_states.length = 50 ∧ valid_states.Nodup := by
  refine ⟨?_, rfl, by decide⟩
  induction rows with
  | nil => rfl
  | cons r rs ih =>
      rcases r with _ | ⟨a, _ | ⟨b, _ | ⟨c, _ | ⟨d, _ | ⟨e, rest⟩⟩⟩⟩⟩
      · simpa [load_qozs_csv, List.filter_cons, rowKeep] using ih
      · simpa [load_qozs_csv, List.filter_cons, rowKeep] using ih
      · simpa [load_qozs_csv, List.filter_cons, rowKeep] using ih
      · simpa [load_qozs_csv, List.filter_cons, rowKeep] using ih
      · simpa [load_qozs_csv, List.filter_cons, rowKeep] using ih
      · by_cases hs : a ≠ ("") ∧ a ∈ valid_states
        · have hk : rowKeep (a :: b :: c :: d :: e :: rest) = true := by
            have h5 : 5 ≤ (a :: b :: c :: d :: e :: rest).length := by
              simp only [List.length_cons]
              omega
            simp [rowKeep, h5, hs.1, hs.2]
          simp [load_qozs_csv, hs, List.filter_cons, hk, rowToQoz, ih]
        · have hk : rowKeep (a :: b :: c :: d :: e :: rest) = false := by
            simp only [rowKeep, decide_eq_false_iff_not]
            intro hcontra
            exact hs ⟨hcontra.2.1, by simpa using hcontra.2.2⟩
          simp [load_qozs_csv, hs, List.filter_cons, hk, ih]

theorem sum_map_add {β : Type} (f g : β → Nat) :
    ∀ qs : List β,
      (qs.map (fun q => f q + g q)).sum = (qs.map f).sum + (qs.map g).sum := by
  intro qs
  induction qs with
  | nil => rfl
  | cons q qs ih =>
      simp [ih]
      omega

theorem sum_map_ite_count {β : Type} (b : β → Bool) :
    ∀ qs : List β,
      (qs.map (fun q => if b q then 1 else 0)).sum = (qs.filter b).length := by
  intro qs
  induction qs with
  | nil => rfl
  | cons q qs ih =>
      cases hb : b q with
      | true =>
          simp [List.filter_cons, hb, ih]
          omega
      | false => simp [List.filter_cons, hb, ih]

theorem sum_filter_swap {α β : Type} (p : β → α → Bool) (qs : List β) :
    ∀ ts : List α,
      (ts.map (fun t => (qs.filter (fun q => p q t)).length)).sum =
      (qs.map (fun q => (ts.filter (fun t => p q t)).length)).sum := by
  intro ts
  induction ts with
  | nil => simp
  | cons t ts ih =>
      have hcongr :
          (qs.map (fun q => ((t :: ts).filter (fun t2 => p q t2)).length)) =
          (qs.map (fun q =>
            (if p q t then 1 else 0) + (ts.filter (fun t2 => p q t2)).length)) := by
        apply List.map_congr_left
        intro q _
        cases hb : p q t with
        | true =>
            simp [List.filter_cons, hb]
            omega
        | false => simp [List.filter_cons, hb]
      rw [List.map_cons, List.sum_cons, hcongr, sum_map_add, sum_map_ite_count, ih]

theorem filter_key_length_of_nodup {α : Type} (key : α → String) (s : String) :
    ∀ ts : List α, (ts.map key).Nodup →
      (ts.filter (fun t => s == key t)).length =
        if (ts.map key).contains s then 1 else 0 := by
  intro ts
  induction ts with
  | nil => intro h; rfl
  | cons t ts ih =>
      intro hnd
      rw [List.map_cons, List.nodup_cons] at hnd
      obtain ⟨hnotin, hnd2⟩ := hnd
      cases hbeq : (s == key t) with
      | true =>
          have hse : s = key t := beq_iff_eq.mp hbeq
          have hnil : ts.filter (fun t2 => s == key t2) = [] := by
            rw [List.filter_eq_nil_iff]
            intro t2 ht2 hb2
            have h1 : key t2 = s := (beq_iff_eq.mp hb2).symm
            have h3 : key t ∈ List.map key ts := by
              rw [← hse, ← h1]
              exact List.mem_map_of_mem key ht2
            exact hnotin h3
          have hcont : ((key t :: ts.map key).contains s) = true := by
            rw [List.contains_cons, hbeq, Bool.true_or]
          rw [List.filter_cons, if_pos hbeq, hnil, List.map_cons, hcont,
            if_pos rfl]
          rfl
      | false =>
          have hcont : ((key t :: ts.map key).contains s) =
              ((ts.map key).contains s) := by
            rw [List.contains_cons, hbeq, Bool.false_or]
          rw [List.filter_cons, List.map_cons, hcont,
            if_neg (by simp [hbeq])]
          exact ih hnd2

/-- C8: when the boundary table's tract identifiers are distinct (it is
keyed by GEOID), every zone row whose zero-padded tract code matches a
tract identifier yields exactly one joined output row, rows with no match
are excluded, and the output row count equals the count of matching zone
rows. -/
theorem C8_inner_join (tracts : List Tract) (qozs : List QOZ)
    (hnd : (tracts.map Tract.geoid).Nodup) :
    (mergeInner tracts qozs).length =
      (qozs.filter (fun q =>
        (tracts.map Tract.geoid).contains (pad11 q.tract_id))).length ∧
    (∀ q ∈ qozs, pad11 q.tract_id ∉ tracts.map Tract.geoid →
      ∀ pr ∈ mergeInner tracts qozs, pr.2 ≠ q) := by
  constructor
  · have h1 : (mergeInner tracts qozs).length =
        (tracts.map (fun t =>
          (qozs.filter (fun q => pad11 q.tract_id == t.geoid)).length)).sum := by
      rw [mergeInner, List.length_flatMap]
      apply congrArg List.sum
      apply List.map_congr_left
      intro t _
      simp [List.length_map]
    rw [h1, sum_filter_swap (fun q t => pad11 q.tract_id == t.geoid) qozs tracts]
    have h2 : (qozs.map (fun q =>
          (tracts.filter (fun t => pad11 q.tract_id == t.geoid)).length)) =
        (qozs.map (fun q =>
          if (tracts.map Tract.geoid).contains (pad11 q.tract_id)
          then 1 else 0)) := by
      apply List.map_congr_left
      intro q _
      exact filter_key_length_of_nodup Tract.geoid (pad11 q.tract_id) tracts hnd
    rw [h2, sum_map_ite_count]
  · intro q hq hnomatch pr hpr hpq
    rw [mergeInner, List.mem_flatMap] at hpr
    obtain ⟨t, ht, hpr2⟩ := hpr
    rw [List.mem_map] at hpr2
    obtain ⟨q2, hq2, hpr3⟩ := hpr2
    rw [List.mem_filter] at hq2
    obtain ⟨hq2mem, hq2match⟩ := hq2
    have hq2q : q2 = q := by
      rw [← hpr3] at hpq
      exact hpq
    apply hnomatch
    have hkey : pad11 q2.tract_id = t.geoid := beq_iff_eq.mp hq2match
    rw [← hq2q, hkey]
    exact List.mem_map_of_mem Tract.geoid ht

/-- C8 witness: a concrete tract/zone table pair with one matching and one
unmatched zone row. -/
theorem C8_inner_join_witness :
    (exTracts.map Tract.geoid).Nodup ∧
    ((mergeInner exTracts exQozsC8).length =
      (exQozsC8.filter (fun q =>
        (exTracts.map Tract.geoid).contains (pad11 q.tract_id))).length ∧
     (∀ q ∈ exQozsC8, pad11 q.tract_id ∉ exTracts.map Tract.geoid →
        ∀ pr ∈ mergeInner exTracts exQozsC8, pr.2 ≠ q)) :=
  ⟨by decide, C8_inner_join exTracts exQozsC8 (by decide)⟩

/-- C9 counterexample: for a country absent from every data dict, the
`property_appreciation`, `builder_accessibility` and
`international_accessibility` cells — missing numeric fields — are written
as empty strings, not as the literal NULL marker. -/
theorem C9_counterexample :
    economic_csv exEmptyLookup exEmptyLookup ("2025-01-01") [("atlantis")] =
      [csvHeader,
       [("atlantis"), ("NULL"), ("NULL"), (""), (""), (""), ("2025-01-01")]] ∧
    (("") : String) ≠ ("NULL") :=
  ⟨rfl, by decide⟩

/-- C9 (amended): the output table starts with the fixed 7-column header
and every row has the header's width; a missing `gdp_growth` or
`employment_rate` value is rendered as the literal NULL marker, while the
three placeholder columns are always rendered as empty strings. -/
theorem C9_null_rendering (gdp emp : String → Option String) (today : String)
    (countries : List String) :
    (economic_csv gdp emp today countries).head? = some csvHeader ∧
    csvHeader.length = 7 ∧
    (∀ c : String, (makeRow gdp emp today c).length = csvHeader.length) ∧
    (∀ c : String, gdp c = none →
      (makeRow gdp emp today c)[1]? = some ("NULL")) ∧
    (∀ c : String, emp c = none →
      (makeRow gdp emp today c)[2]? = some ("NULL")) ∧
    (∀ c : String, (makeRow gdp emp today c)[3]? = some ("") ∧
      (makeRow gdp emp today c)[4]? = some ("") ∧
      (makeRow gdp emp today c)[5]? = some ("")) := by
  refine ⟨rfl, rfl, fun c => rfl, ?_, ?_, fun c => ⟨rfl, rfl, rfl⟩⟩
  · intro c hc
    simp [makeRow, hc, null_if_missing]
  · intro c hc
    simp [makeRow, hc, null_if_missing]

/-- C9 witness: a concrete run with an empty data dict. -/
theorem C9_null_rendering_witness :
    exEmptyLookup ("atlantis") = none ∧
    (economic_csv exEmptyLookup exEmptyLookup ("2025-01-01")
      [("atlantis")]).head? = some csvHeader ∧
    (makeRow exEmptyLookup exEmptyLookup ("2025-01-01") ("atlantis"))[1]? =
      some ("NULL") ∧
    (makeRow exEmptyLookup exEmptyLookup ("2025-01-01") ("atlantis"))[2]? =
      some ("NULL") ∧
    (makeRow exEmptyLookup exEmptyLookup ("2025-01-01") ("atlantis"))[3]? =
      some ("") :=
  ⟨rfl,
    (C9_null_rendering exEmptyLookup exEmptyLookup ("2025-01-01")
      [("atlantis")]).1,
    (C9_null_rendering exEmptyLookup exEmptyLookup ("2025-01-01")
      [("atlantis")]).2.2.2.1 ("atlantis") rfl,
    (C9_null_rendering exEmptyLookup exEmptyLookup ("2025-01-01")
      [("atlantis")]).2.2.2.2.1 ("atlantis") rfl,
    ((C9_null_rendering exEmptyLookup exEmptyLookup ("2025-01-01")
      [("atlantis")]).2.2.2.2.2 ("atlantis")).1⟩

end RealGlobal
